import Mathlib

/-!
Verification of the refresh-and-retry coordination core of next-jwt-refresh.

This file gives a shallow embedding of the refresh / retry / refreshAndRetry /
fetchWithRefreshRetry operations (src/utils/refresh/refresh.ts,
src/utils/refreshAndRetry/refreshAndRetry.ts,
src/utils/fetchWithRefreshRetry/fetchWithRefreshRetry.ts) and proves or refutes
the claims of the specification against it.

Modelling conventions:
- JSON bodies are values of the inductive type Json; a field that is absent in
  a JavaScript object is modelled as a failed lookup (Option.none), and the
  JavaScript values null and undefined are both mapped to Option.none where a
  result field of an operation is concerned.
- The HTTP transport is a function from a request to Option of a response;
  Option.none models a network-level exception thrown by fetch.  A response
  whose body cannot be parsed as JSON is modelled by jsonBody set to none
  (response.json() throwing).
- The cookie store is an association list from cookie names to string values;
  cookie attributes (httpOnly, maxAge, and so on) are not observed by any claim
  and are not modelled.
- JavaScript truthiness is modelled by jsTruthy; the lazy or-chains of the
  source (a || b || c) are modelled by jsOr, which yields the first truthy
  operand and none when every operand is falsy.
-/

/-- A JSON value, the model of parsed request and response bodies. -/
inductive Json where
  | null
  | bool (b : Bool)
  | num (n : Int)
  | str (s : String)
  | obj (fields : List (String × Json))
  | arr (elems : List Json)

/-- JavaScript truthiness of a JSON value: null, false, 0 and the empty string
are falsy, everything else (objects and arrays included) is truthy. -/
def jsTruthy : Json → Bool
  | .null => false
  | .bool b => b
  | .num n => n != 0
  | .str s => !s.isEmpty
  | .obj _ => true
  | .arr _ => true

/-- Lookup of a key in a list of JSON object fields (first match). -/
def lookupField : List (String × Json) → String → Option Json
  | [], _ => none
  | (k, v) :: rest, key => if k == key then some v else lookupField rest key

/-- JavaScript property access data[key]: a lookup in an object, undefined
(none) on any non-object value. -/
def jsLookup : Json → String → Option Json
  | .obj fields, key => lookupField fields key
  | _, _ => none

/-- Normalisation of an optional JSON value to its truthy core: a falsy value
is identified with undefined, which is how the source only ever consumes these
values (truthiness tests and use-when-truthy). -/
def jsTruthyOpt : Option Json → Option Json
  | some v => if jsTruthy v then some v else none
  | none => none

/-- A JSON value assigned to a result data field: the JavaScript null maps to
an absent field under the null-to-none convention of OperationResult. -/
def jsOptData (v : Json) : Option Json :=
  match v with
  | .null => none
  | v => some v

/-- The JavaScript or-operator a || b over optional JSON values: the first
operand when truthy, otherwise the second (normalised). -/
def jsOr (a b : Option Json) : Option Json :=
  match jsTruthyOpt a with
  | some v => some v
  | none => jsTruthyOpt b

/-- JavaScript membership test of the character sequence pat inside s,
modelling String.prototype.includes. -/
def listIncludes : List Char → List Char → Bool
  | _, [] => true
  | [], _ :: _ => false
  | c :: cs, p :: ps => (p :: ps).isPrefixOf (c :: cs) || listIncludes cs (p :: ps)

/-- String inclusion s.includes(pat). -/
def strIncludes (s pat : String) : Bool := listIncludes s.toList pat.toList

/-- Membership of the exact string s among the elements of a JSON array,
modelling Array.prototype.includes applied to a string argument (SameValueZero
on a string argument can only match string elements). -/
def jsonListContains (es : List Json) (s : String) : Bool :=
  es.any fun e =>
    match e with
    | .str t => t == s
    | _ => false

/-- The authHeaderFormat configuration value of the TokenConfig interface in
src/utils/refresh/refresh.ts: the literal "Bearer", the literal "Token", or a
caller-supplied formatting function. -/
inductive AuthHeaderFormat where
  | bearer
  | token
  | custom (format : String → String)

/-- The TokenConfig interface of src/utils/refresh/refresh.ts; a field that the
caller did not supply is none. -/
structure TokenConfig where
  accessTokenName : Option String := none
  refreshTokenName : Option String := none
  authHeaderFormat : Option AuthHeaderFormat := none

/-- A TokenConfig with every field resolved. -/
structure ResolvedTokenConfig where
  accessTokenName : String
  refreshTokenName : String
  authHeaderFormat : AuthHeaderFormat

/-- The default token configuration merge of refresh.ts lines 29 to 34: spread
of the caller configuration over the defaults accessToken / refreshToken /
Bearer. -/
def resolveTokenConfig (tokenNames : Option TokenConfig) : ResolvedTokenConfig :=
  { accessTokenName := (tokenNames.bind TokenConfig.accessTokenName).getD "accessToken"
  , refreshTokenName := (tokenNames.bind TokenConfig.refreshTokenName).getD "refreshToken"
  , authHeaderFormat := (tokenNames.bind TokenConfig.authHeaderFormat).getD .bearer }

/-- An outbound HTTP request: the arguments handed to fetch. -/
structure HttpRequest where
  url : String
  method : String
  headers : List (String × String)
  body : Option Json

/-- A completed HTTP response.  jsonBody is the parsed JSON body, none when
response.json() would throw; setCookie is the set-cookie header. -/
structure HttpResponse where
  status : Nat
  jsonBody : Option Json
  setCookie : Option String

/-- The transport collaborator: performs a request, none models a thrown
network error. -/
abbrev Transport := HttpRequest → Option HttpResponse

/-- Response.ok: status in the 2xx range. -/
def respOk (r : HttpResponse) : Bool := 200 ≤ r.status && r.status < 300

/-- The uniform result shape of the public operations.  Option.none models a
field that is absent or holds null / undefined in the JavaScript value.  The
error field carries the JavaScript value the source assigns to it: a string
literal on most paths, but the raw message or error field value of the
response body on the non-2xx retry path, which need not be a string. -/
structure OperationResult where
  success : Bool
  status : Option Nat := none
  data : Option Json := none
  error : Option Json := none
  needsRefresh : Option Bool := none
  needsLogin : Option Bool := none

/-- The credential store (the cookie jar): an association list from cookie
names to values. -/
abbrev CookieStore := List (String × String)

/-- Read of a named cookie. -/
def storeGet : CookieStore → String → Option String
  | [], _ => none
  | (k, v) :: rest, name => if k == name then some v else storeGet rest name

/-- Write of a named cookie, overwriting an existing entry of the same name
(also the model of JavaScript object property assignment for the cookie map of
parseCookieHeader). -/
def storeSet : CookieStore → String → String → CookieStore
  | [], name, value => [(name, value)]
  | (k, v) :: rest, name, value =>
    if k == name then (k, value) :: rest else (k, v) :: storeSet rest name value

/-- Read of a named cookie through the truthiness test of the source
(cookies().get(name)?.value followed by a falsiness check): an empty value is
identified with an absent one. -/
def storeGetTruthy (store : CookieStore) (name : String) : Option String :=
  match storeGet store name with
  | some v => if v.isEmpty then none else some v
  | none => none

/-- The RefreshOptions argument of refresh (RequestInit together with
responseType and tokenNames); only the RequestInit fields that the embedding
observes are modelled. -/
inductive ResponseType where
  | json
  | cookies
deriving DecidableEq

structure RefreshOptions where
  responseType : Option ResponseType := none
  tokenNames : Option TokenConfig := none
  method : Option String := none
  headers : Option (List (String × String)) := none
  body : Option Json := none

/-- The RetryOptions argument of retry.ts (RequestInit together with
tokenNames), also the options argument of the initial fetch. -/
structure RetryOptions where
  tokenNames : Option TokenConfig := none
  method : Option String := none
  headers : Option (List (String × String)) := none
  body : Option Json := none

/-- The refresh request constructed at refresh.ts lines 52 to 61.  The method
and headers defaults stand before the spread of the caller options and can be
overridden by them; the body property stands after the spread, so the
constructed body always wins, a caller-supplied body included. -/
def buildRefreshRequest (url : String) (options : RefreshOptions) (refreshToken : String) :
    HttpRequest :=
  { url := url
  , method := options.method.getD "POST"
  , headers := options.headers.getD [("Content-Type", "application/json")]
  , body := some (.obj [((resolveTokenConfig options.tokenNames).refreshTokenName, .str refreshToken)]) }

/-- Whitespace for the lookahead of the set-cookie splitting regex. -/
def isWsChar (c : Char) : Bool := c == ' ' || c == '\t' || c == '\n' || c == '\r'

/-- A word character, the character class of the lookahead of the set-cookie
splitting regex of parseCookieHeader. -/
def isWordChar (c : Char) : Bool := c.isAlpha || c.isDigit || c == '_'

/-- The lookahead of the splitting regex of parseCookieHeader (refresh.ts line
165): after optional whitespace, one or more word characters followed by an
equals sign. -/
def cookieBoundary (cs : List Char) : Bool :=
  let rest := cs.dropWhile isWsChar
  let word := rest.takeWhile isWordChar
  !word.isEmpty && (rest.drop word.length).head? == some '='

/-- Split of the set-cookie header at every comma whose lookahead matches
cookieBoundary, the model of setCookieHeader.split of refresh.ts line 165. -/
def splitCookieChars : List Char → List Char → List (List Char)
  | [], acc => [acc.reverse]
  | c :: rest, acc =>
    if c == ',' && cookieBoundary rest then acc.reverse :: splitCookieChars rest []
    else splitCookieChars rest (c :: acc)

/-- Processing of one cookie string of parseCookieHeader (refresh.ts lines 167
to 173): take the part before the first semicolon, split it on the equals
signs, trim the first two parts, and record the pair when both are nonempty. -/
def addCookieString (m : List (String × String)) (cs : List Char) : List (String × String) :=
  let cookieString := String.mk cs
  let nameValue := (cookieString.splitOn ";").headD ""
  match (nameValue.splitOn "=").map String.trim with
  | name :: value :: _ =>
    if !name.isEmpty && !value.isEmpty then storeSet m name value else m
  | _ => m

/-- parseCookieHeader of refresh.ts lines 161 to 176. -/
def parseCookieHeader (setCookieHeader : String) : List (String × String) :=
  (splitCookieChars setCookieHeader.toList []).foldl addCookieString []

mutual
/-- The JavaScript string coercion String(v) applied when a JSON token value is
persisted as a cookie value; array elements that are null map to the empty
string under Array.prototype.join. -/
def jsToString : Json → String
  | .null => "null"
  | .bool b => if b then "true" else "false"
  | .num n => toString n
  | .str s => s
  | .obj _ => "[object Object]"
  | .arr es => jsListToString es
def jsElemToString : Json → String
  | .null => ""
  | v => jsToString v
def jsListToString : List Json → String
  | [] => ""
  | [e] => jsElemToString e
  | e :: rest => jsElemToString e ++ "," ++ jsListToString rest
end

/-- The token extraction of the json response mode (refresh.ts lines 104 to
113): the or-chains over the configured access token field name and the
literal fallbacks, and over the configured refresh token field name and its
fallbacks. -/
def extractJsonTokens (cfg : ResolvedTokenConfig) (refreshData : Json) :
    Option Json × Option Json :=
  ( jsOr (jsOr (jsOr (jsLookup refreshData cfg.accessTokenName)
                     (jsLookup refreshData "accessToken"))
               (jsLookup refreshData "token"))
         (jsLookup refreshData "access_token")
  , jsOr (jsOr (jsLookup refreshData cfg.refreshTokenName)
               (jsLookup refreshData "refreshToken"))
         (jsLookup refreshData "refresh_token") )

/-- The token extraction of the cookies response mode (refresh.ts lines 88 to
91): parse the set-cookie header and look both token names up. -/
def extractCookieTokens (cfg : ResolvedTokenConfig) (setCookieHeader : String) :
    Option String × Option String :=
  let cookieMap := parseCookieHeader setCookieHeader
  (storeGet cookieMap cfg.accessTokenName, storeGet cookieMap cfg.refreshTokenName)

/-- The first suspension segment of refresh (refresh.ts lines 29 to 49): read
the refresh token cookie; when it is absent or empty, the early failure result,
otherwise the token. -/
def refreshRead (options : RefreshOptions) (store : CookieStore) :
    Sum OperationResult String :=
  let tokenConfig := resolveTokenConfig options.tokenNames
  match storeGetTruthy store tokenConfig.refreshTokenName with
  | none =>
    .inl { success := false, status := some 401
         , error := some (.str "No refresh token available"), data := none }
  | some refreshToken => .inr refreshToken

/-- The second suspension segment of refresh (refresh.ts lines 52 to 123):
perform the refresh request and extract the new tokens.  A network error or an
unparseable json body lands in the catch clause of refresh (lines 151 to 158).
The extraction yields the new access token value, the optional new refresh
token value (none exactly when the extracted value is falsy, matching the
truthiness test before the refresh token cookie write), and the response
status. -/
def refreshFetch (url : String) (options : RefreshOptions) (transport : Transport)
    (refreshToken : String) : Sum OperationResult (Json × Option Json × Nat) :=
  let tokenConfig := resolveTokenConfig options.tokenNames
  match transport (buildRefreshRequest url options refreshToken) with
  | none =>
    .inl { success := false, status := some 500, data := none
         , error := some (.str "Request failed") }
  | some refreshResponse =>
    if !respOk refreshResponse then
      .inl { success := false, status := some refreshResponse.status
           , error := some (.str "Token refresh failed"), data := none }
    else
      match options.responseType.getD .json with
      | .cookies =>
        match refreshResponse.setCookie with
        | none =>
          .inl { success := false, status := some 500
               , error := some (.str "No cookies returned from refresh endpoint")
               , data := none }
        | some setCookieHeader =>
          match extractCookieTokens tokenConfig setCookieHeader with
          | (none, _) =>
            .inl { success := false, status := some 500
                 , error := some (.str ("Access token not found in cookies (looking for: "
                     ++ tokenConfig.accessTokenName ++ ")"))
                 , data := none }
          | (some newAccessToken, newRefreshToken) =>
            .inr (.str newAccessToken, newRefreshToken.map .str, refreshResponse.status)
      | .json =>
        match refreshResponse.jsonBody with
        | none =>
          .inl { success := false, status := some 500, data := none
               , error := some (.str "Request failed") }
        | some refreshData =>
          match extractJsonTokens tokenConfig refreshData with
          | (none, _) =>
            .inl { success := false, status := some 500
                 , error := some (.str ("Access token not found in response (looking for: "
                     ++ tokenConfig.accessTokenName ++ ")"))
                 , data := none }
          | (some newAccessToken, newRefreshToken) =>
            .inr (newAccessToken, newRefreshToken, refreshResponse.status)

/-- The third suspension segment of refresh (refresh.ts lines 125 to 150):
persist the new access token cookie, persist the new refresh token cookie when
one was extracted, and return the success result, whose data field is null. -/
def refreshWrite (options : RefreshOptions) (store : CookieStore) (newAccessToken : Json)
    (newRefreshToken : Option Json) (status : Nat) : OperationResult × CookieStore :=
  let tokenConfig := resolveTokenConfig options.tokenNames
  let store1 := storeSet store tokenConfig.accessTokenName (jsToString newAccessToken)
  let store2 :=
    match newRefreshToken with
    | some v => storeSet store1 tokenConfig.refreshTokenName (jsToString v)
    | none => store1
  ({ success := true, status := some status, data := none, error := none }, store2)

/-- The refresh server action of src/utils/refresh/refresh.ts: the sequential
composition of its three suspension segments. -/
def refresh (url : String) (options : RefreshOptions) (transport : Transport)
    (store : CookieStore) : OperationResult × CookieStore :=
  match refreshRead options store with
  | .inl r => (r, store)
  | .inr refreshToken =>
    match refreshFetch url options transport refreshToken with
    | .inl r => (r, store)
    | .inr (newAccessToken, newRefreshToken, status) =>
      refreshWrite options store newAccessToken newRefreshToken status

/-- The Authorization header value for a given format: the literal scheme
prefix concatenated (with a separating space, as in the specification scenario
Authorization: Bearer A2) with the token, or the output of the caller-supplied
formatting function. -/
def formatAuthHeader (format : AuthHeaderFormat) (accessToken : String) : String :=
  match format with
  | .bearer => "Bearer " ++ accessToken
  | .token => "Token " ++ accessToken
  | .custom f => f accessToken

/-- Header lookup by literal name: the headers object retry.ts builds is a
plain JavaScript object, whose keys are literal strings. -/
def headerGet : List (String × String) → String → Option String
  | [], _ => none
  | (k, v) :: rest, name => if k == name then some v else headerGet rest name

/-- Header write by literal name: replace the first entry of the same name,
append otherwise. -/
def headerSet : List (String × String) → String → String → List (String × String)
  | [], name, value => [(name, value)]
  | (k, v) :: rest, name, value =>
    if k == name then (k, value) :: rest
    else (k, v) :: headerSet rest name value

/-- The request the retry executor issues (retry.ts, the second document of
src/components/AuthServerComponentWrapper/auth-server-component-wrapper.tsx,
lines 104 to 112): the caller options spread (method, body), with headers
composed as the caller headers first, then the Authorization entry when an
access token is stored and the computed header value is truthy (non-empty),
then Content-Type and Accept set to JSON; the two JSON entries stand after the
spread of the caller headers, so they always overwrite caller values of those
names. -/
def buildRetryRequest (url : String) (options : RetryOptions)
    (accessToken : Option String) : HttpRequest :=
  let tokenConfig := resolveTokenConfig options.tokenNames
  let callerHeaders := options.headers.getD []
  let withAuth :=
    match accessToken with
    | some tok =>
      let authHeader := formatAuthHeader tokenConfig.authHeaderFormat tok
      if authHeader.isEmpty then callerHeaders
      else headerSet callerHeaders "Authorization" authHeader
    | none => callerHeaders
  let withCt := headerSet withAuth "Content-Type" "application/json"
  let withAccept := headerSet withCt "Accept" "application/json"
  { url := url
  , method := options.method.getD "GET"
  , headers := withAccept
  , body := options.body }

/-- The error value of the non-2xx retry result (retry.ts line 123):
data.message or data.error or the literal Request failed, first truthy value
wins, whatever its JSON type. -/
def retryErrorValue (data : Json) : Json :=
  (jsOr (jsLookup data "message") (jsLookup data "error")).getD (.str "Request failed")

/-- The retry executor of retry.ts (the second document of
src/components/AuthServerComponentWrapper/auth-server-component-wrapper.tsx,
lines 82 to 133): resolve the token configuration, read the access token
cookie, and issue the request whether or not a token is stored (the
Authorization header is simply omitted when the token is absent or the
computed value is falsy).  The response body is parsed unconditionally; a
network error, an unparseable body, and the data.message property access on a
null body of a non-2xx response all throw and land in the catch clause, whose
result carries needsLogin and no status.  On a parsed body, success mirrors
response.ok, the needsRefresh flag is always set (true exactly on status 401),
data is the parsed body on a 2xx (null body meaning an absent data field) and
null otherwise, and the error is the message / error / fallback chain on a
non-2xx.  The second component records the request handed to the transport. -/
def retryT (url : String) (options : RetryOptions) (transport : Transport)
    (store : CookieStore) : OperationResult × Option HttpRequest :=
  let tokenConfig := resolveTokenConfig options.tokenNames
  let request :=
    buildRetryRequest url options (storeGetTruthy store tokenConfig.accessTokenName)
  match transport request with
  | none =>
    ({ success := false, status := none, data := none
     , error := some (.str "Authentication failed"), needsLogin := some true }, some request)
  | some response =>
    match response.jsonBody with
    | none =>
      ({ success := false, status := none, data := none
       , error := some (.str "Authentication failed"), needsLogin := some true }, some request)
    | some data =>
      if respOk response then
        ({ success := true, status := some response.status
         , needsRefresh := some (response.status == 401)
         , data := jsOptData data, error := none }, some request)
      else
        match data with
        | .null =>
          ({ success := false, status := none, data := none
           , error := some (.str "Authentication failed"), needsLogin := some true },
           some request)
        | _ =>
          ({ success := false, status := some response.status
           , needsRefresh := some (response.status == 401), data := none
           , error := some (retryErrorValue data) }, some request)

/-- The retry operation (result component of retryT). -/
def retry (url : String) (options : RetryOptions) (transport : Transport)
    (store : CookieStore) : OperationResult :=
  (retryT url options transport store).1

/-- The refreshAndRetry server action of
src/utils/refreshAndRetry/refreshAndRetry.ts: call refresh; return its result
on failure, otherwise call retry on the original url with the caller options
whose tokenNames property is overwritten by refreshOptions.tokenNames (the
source spreads options and then sets tokenNames after the spread).  The third
component records the options handed to retry, none when retry was not
invoked. -/
def refreshAndRetryT (url : String) (options : RetryOptions) (refreshUrl : String)
    (refreshOptions : RefreshOptions) (transport : Transport) (store : CookieStore) :
    OperationResult × CookieStore × Option RetryOptions :=
  let refreshRun := refresh refreshUrl refreshOptions transport store
  if !refreshRun.1.success then (refreshRun.1, refreshRun.2, none)
  else
    let retryOptions := { options with tokenNames := refreshOptions.tokenNames }
    (retry url retryOptions transport refreshRun.2, refreshRun.2, some retryOptions)

/-- The refreshAndRetry operation (result and store components of
refreshAndRetryT). -/
def refreshAndRetry (url : String) (options : RetryOptions) (refreshUrl : String)
    (refreshOptions : RefreshOptions) (transport : Transport) (store : CookieStore) :
    OperationResult × CookieStore :=
  ((refreshAndRetryT url options refreshUrl refreshOptions transport store).1,
   (refreshAndRetryT url options refreshUrl refreshOptions transport store).2.1)

/-- The initial request of fetchWithRefreshRetry: fetch(url, options). -/
def buildInitialRequest (url : String) (options : RetryOptions) : HttpRequest :=
  { url := url
  , method := options.method.getD "GET"
  , headers := options.headers.getD []
  , body := options.body }

/-- The expiry test data.message.includes of fetchWithRefreshRetry.ts line 22.
Some b is the boolean outcome of the test; none models the evaluations that
throw (data without a message property, or a message value that carries no
includes method), which land in the catch clause.  A string message is a
substring test; an array message is an element membership test. -/
def messageIndicatesExpiry (data : Json) : Option Bool :=
  match jsLookup data "message" with
  | some (.str m) => some (strIncludes m "expire")
  | some (.arr es) => some (jsonListContains es "expire")
  | _ => none

/-- The fetchWithRefreshRetry orchestrator of
src/utils/fetchWithRefreshRetry/fetchWithRefreshRetry.ts.  The third component
counts the refreshAndRetry invocations.  Every thrown exception (network error,
unparseable body, message access throwing) lands in the catch clause, whose
result is the same literal as the hard failure branch: success false, error
Authentication failed, data null, no status. -/
def fetchWithRefreshRetryT (url : String) (options : RetryOptions) (refreshUrl : String)
    (refreshOptions : RefreshOptions) (transport : Transport) (store : CookieStore) :
    OperationResult × CookieStore × Nat :=
  match transport (buildInitialRequest url options) with
  | none =>
    ({ success := false, status := none
     , error := some (.str "Authentication failed"), data := none }, store, 0)
  | some response =>
    if !respOk response then
      if response.status == 401 then
        let run := refreshAndRetryT url options refreshUrl refreshOptions transport store
        (run.1, run.2.1, 1)
      else
        match response.jsonBody with
        | none =>
          ({ success := false, status := none
           , error := some (.str "Authentication failed"), data := none }, store, 0)
        | some data =>
          match messageIndicatesExpiry data with
          | some true =>
            let run := refreshAndRetryT url options refreshUrl refreshOptions transport store
            (run.1, run.2.1, 1)
          | some false =>
            ({ success := false, status := none
             , error := some (.str "Authentication failed"), data := none }, store, 0)
          | none =>
            ({ success := false, status := none
             , error := some (.str "Authentication failed"), data := none }, store, 0)
    else
      match response.jsonBody with
      | none =>
        ({ success := false, status := none
         , error := some (.str "Authentication failed"), data := none }, store, 0)
      | some data =>
        ({ success := true, status := some response.status, data := jsOptData data
         , error := none }, store, 0)

/-- The fetchWithRefreshRetry operation (result and store components). -/
def fetchWithRefreshRetry (url : String) (options : RetryOptions) (refreshUrl : String)
    (refreshOptions : RefreshOptions) (transport : Transport) (store : CookieStore) :
    OperationResult × CookieStore :=
  ((fetchWithRefreshRetryT url options refreshUrl refreshOptions transport store).1,
   (fetchWithRefreshRetryT url options refreshUrl refreshOptions transport store).2.1)

/-- The progress of one caller through the suspension segments of refresh, for
the cooperative-interleaving model of concurrent callers.  The segments are
exactly refreshRead, refreshFetch and refreshWrite, so a caller that runs
alone computes precisely refresh (theorem stepTimes_eq_refresh below). -/
inductive CallerPhase where
  | start
  | fetching (refreshToken : String)
  | writing (newAccessToken : Json) (newRefreshToken : Option Json) (status : Nat)
  | done (result : OperationResult)

/-- One cooperative step of a caller executing refresh against the shared
cookie store.  The third component counts the refresh executions (transport
invocations of the refresh endpoint) performed by the step. -/
def callerStep (url : String) (options : RefreshOptions) (transport : Transport) :
    CallerPhase → CookieStore → CallerPhase × CookieStore × Nat
  | .start, store =>
    match refreshRead options store with
    | .inl r => (.done r, store, 0)
    | .inr tok => (.fetching tok, store, 0)
  | .fetching tok, store =>
    match refreshFetch url options transport tok with
    | .inl r => (.done r, store, 1)
    | .inr (av, rv, st) => (.writing av rv st, store, 1)
  | .writing av rv st, store =>
    let run := refreshWrite options store av rv st
    (.done run.1, run.2, 0)
  | .done r, store => (.done r, store, 0)

/-- Iterated cooperative steps of a single caller. -/
def stepTimes (url : String) (options : RefreshOptions) (transport : Transport) :
    Nat → CallerPhase × CookieStore → CallerPhase × CookieStore
  | 0, x => x
  | n + 1, (p, store) =>
    let run := callerStep url options transport p store
    stepTimes url options transport n (run.1, run.2.1)

/-- The joint state of two concurrent callers of refresh for the same refresh
scope (same url and options), sharing the cookie store; refreshExecutions
counts the refresh executions both callers performed so far. -/
structure TwoCallerState where
  caller1 : CallerPhase
  caller2 : CallerPhase
  store : CookieStore
  refreshExecutions : Nat

/-- One scheduling step: the chosen caller (true for the first) performs its
next cooperative step. -/
def schedStep (url : String) (options : RefreshOptions) (transport : Transport)
    (st : TwoCallerState) (who : Bool) : TwoCallerState :=
  if who then
    let run := callerStep url options transport st.caller1 st.store
    { caller1 := run.1, caller2 := st.caller2, store := run.2.1
    , refreshExecutions := st.refreshExecutions + run.2.2 }
  else
    let run := callerStep url options transport st.caller2 st.store
    { caller1 := st.caller1, caller2 := run.1, store := run.2.1
    , refreshExecutions := st.refreshExecutions + run.2.2 }

/-- A run of a schedule (list of caller choices) from a joint state. -/
def schedRun (url : String) (options : RefreshOptions) (transport : Transport) :
    TwoCallerState → List Bool → TwoCallerState
  | st, [] => st
  | st, w :: ws => schedRun url options transport (schedStep url options transport st w) ws

/-- The joint state in which both callers are about to start refresh. -/
def initTwoCallers (store : CookieStore) : TwoCallerState :=
  { caller1 := .start, caller2 := .start, store := store, refreshExecutions := 0 }

/-- A caller whose refresh call has settled. -/
def isDone : CallerPhase → Bool
  | .done _ => true
  | _ => false

/-- Concrete fixtures used by the counterexamples and witnesses. -/
def sampleStore : CookieStore := [("refreshToken", "R1")]

/-- A refresh endpoint response carrying a fresh access token. -/
def okTokenResponse : HttpResponse :=
  { status := 200, jsonBody := some (.obj [("accessToken", .str "A2")]), setCookie := none }

/-- A transport whose every response is okTokenResponse. -/
def sampleTransport : Transport := fun _ => some okTokenResponse

/-- The interleaved schedule of the two-caller counterexample: both callers
start (and read the refresh token) before either performs its refresh
execution, so both executions happen while the other attempt is in flight. -/
def c1Schedule : List Bool := [true, false, true, false, true, false]

/-- The refresh executions a phase has performed on the concrete fixture run
(the execution happens on the step out of the fetching phase). -/
def phaseExecs : CallerPhase → Nat
  | .start => 0
  | .fetching _ => 0
  | .writing _ _ _ => 1
  | .done _ => 1

/-- The successful refresh result of the concrete fixture run. -/
def resultIsOkToken (r : OperationResult) : Bool :=
  r.success && r.status == some 200 && r.data.isNone && r.error.isNone
    && r.needsRefresh.isNone && r.needsLogin.isNone

/-- The phases reachable in the concrete fixture run, with their payloads. -/
def phaseOK : CallerPhase → Bool
  | .start => true
  | .fetching tok => tok == "R1"
  | .writing av rv st =>
    (match av, rv with
     | .str a, none => a == "A2" && st == 200
     | _, _ => false)
  | .done r => resultIsOkToken r

/-- The inductive invariant of the two-caller fixture run: both phases are
reachable ones, the refresh token cookie is intact, and the execution count is
the sum of the executions the two phases have performed. -/
def twoCallerInv (st : TwoCallerState) : Bool :=
  phaseOK st.caller1 && phaseOK st.caller2
    && storeGetTruthy st.store "refreshToken" == some "R1"
    && st.refreshExecutions == phaseExecs st.caller1 + phaseExecs st.caller2

/-- The result-shape invariant of OperationResult: on failure the error is
present; on success the error is absent and the data field is present when
dataRequired is set and null when it is not. -/
def c2Shape (r : OperationResult) (dataRequired : Bool) : Bool :=
  if r.success then r.error.isNone && (if dataRequired then r.data.isSome else r.data.isNone)
  else r.error.isSome

/-- The error half of the result shape invariant: on failure the error is
present, on success it is absent (no constraint on data, whose presence on
success depends on the parsed body). -/
def errorInvariant (r : OperationResult) : Bool :=
  if r.success then r.error.isNone else r.error.isSome

/-- The extraction order the specification describes: walk the key list in
order and take the first truthy (non-empty) match. -/
def firstTruthyLookup (body : Json) : List String → Option Json
  | [] => none
  | key :: rest =>
    match jsLookup body key with
    | some v => if jsTruthy v then some v else firstTruthyLookup body rest
    | none => firstTruthyLookup body rest

/-- A 200 response whose body carries no recognised access token field. -/
def c5Transport : Transport :=
  fun _ => some { status := 200, jsonBody := some (.obj [("foo", .str "bar")]), setCookie := none }

/-- A 403 rejection of the refresh endpoint. -/
def c6Transport : Transport :=
  fun _ => some { status := 403, jsonBody := none, setCookie := none }

/-- A store holding an access token, for the retry witness. -/
def c7Store : CookieStore := [("accessToken", "A1")]

/-- Caller options carrying an explicit Content-Type header. -/
def c7Options : RetryOptions := { headers := some [("Content-Type", "text/plain")] }

/-- A 204 response whose body parses to JSON null, for the retry witness. -/
def c7Transport : Transport :=
  fun _ => some { status := 204, jsonBody := some .null, setCookie := none }

/-- A 500 response whose body is not parseable JSON. -/
def c8Transport : Transport :=
  fun _ => some { status := 500, jsonBody := none, setCookie := none }

/-- A 200 response whose body is not parseable JSON. -/
def c10Transport : Transport :=
  fun _ => some { status := 200, jsonBody := none, setCookie := none }

/-- C10: an initial response with a 2xx status whose body is not valid JSON
makes fetchWithRefreshRetry return the failure result with success false,
error Authentication failed, data null and no status field, leaving the store
untouched. -/
theorem c10_ok_unparseable_body (url : String) (options : RetryOptions) (refreshUrl : String)
    (refreshOptions : RefreshOptions) (transport : Transport) (store : CookieStore)
    (resp : HttpResponse)
    (hresp : transport (buildInitialRequest url options) = some resp)
    (hok : respOk resp = true)
    (hbody : resp.jsonBody = none) :
    fetchWithRefreshRetry url options refreshUrl refreshOptions transport store =
      ({ success := false, status := none, data := none
       , error := some (.str "Authentication failed") }, store) := by
  unfold fetchWithRefreshRetry fetchWithRefreshRetryT
  rw [hresp]
  simp [hok, hbody]

/-- Witness for C10 at a concrete 200 response with an unparseable body. -/
theorem c10_witness :
    fetchWithRefreshRetry "https://api/data" {} "https://auth/refresh" {} c10Transport
      sampleStore =
      ({ success := false, status := none, data := none
       , error := some (.str "Authentication failed") }, sampleStore) :=
  c10_ok_unparseable_body "https://api/data" {} "https://auth/refresh" {} c10Transport
    sampleStore { status := 200, jsonBody := none, setCookie := none } rfl rfl rfl

/-- C8 (amended): a non-2xx, non-401 initial response whose body is malformed
or lacks a parseable message field does not propagate a parse error:
fetchWithRefreshRetry performs no refresh and returns the hard failure result,
whose error is the string Authentication failed (the source uses the same
catch literal for the hard failure branch, not Request failed). -/
theorem c8_hard_failure_message (url : String) (options : RetryOptions) (refreshUrl : String)
    (refreshOptions : RefreshOptions) (transport : Transport) (store : CookieStore)
    (resp : HttpResponse)
    (hresp : transport (buildInitialRequest url options) = some resp)
    (hnok : respOk resp = false)
    (hn401 : resp.status ≠ 401)
    (hbad : resp.jsonBody = none ∨
      ∃ body, resp.jsonBody = some body ∧ messageIndicatesExpiry body = none) :
    fetchWithRefreshRetryT url options refreshUrl refreshOptions transport store =
      ({ success := false, status := none, data := none
       , error := some (.str "Authentication failed") }, store, 0) := by
  have h401 : (resp.status == 401) = false := by simp [hn401]
  unfold fetchWithRefreshRetryT
  rw [hresp]
  rcases hbad with h | ⟨body, hb, hm⟩
  · simp [hnok, h401, h]
  · simp [hnok, h401, hb, hm]

/-- Counterexample for C8 as stated: at a 500 response with an unparseable
body, the returned error is Authentication failed, not Request failed. -/
theorem c8_counterexample :
    (fetchWithRefreshRetry "https://api/data" {} "https://auth/refresh" {} c8Transport
        sampleStore).1.error = some (.str "Authentication failed") ∧
    (fetchWithRefreshRetry "https://api/data" {} "https://auth/refresh" {} c8Transport
        sampleStore).1.error ≠ some (.str "Request failed") := by
  refine ⟨rfl, ?_⟩
  rw [show (fetchWithRefreshRetry "https://api/data" {} "https://auth/refresh" {} c8Transport
      sampleStore).1.error = some (.str "Authentication failed") from rfl]
  intro h
  rw [Option.some.injEq] at h
  injection h with h2
  exact absurd h2 (by decide)

/-- Witness for C8 at the concrete 500 response with an unparseable body. -/
theorem c8_witness :
    fetchWithRefreshRetryT "https://api/data" {} "https://auth/refresh" {} c8Transport
      sampleStore =
      ({ success := false, status := none, data := none
       , error := some (.str "Authentication failed") }, sampleStore, 0) :=
  c8_hard_failure_message "https://api/data" {} "https://auth/refresh" {} c8Transport
    sampleStore { status := 500, jsonBody := none, setCookie := none } rfl rfl
    (by decide) (Or.inl rfl)

/-- C4 (amended): the refresh request defaults its method to POST and caller
options may override method and headers, but the body is always the
constructed JSON object holding the refresh token under the configured refresh
token field name: a caller-supplied body is ignored (the body property of the
fetch call stands after the spread of the caller options). -/
theorem c4_refresh_request_shape (url : String) (options : RefreshOptions)
    (refreshToken : String) :
    (buildRefreshRequest url options refreshToken).method = options.method.getD "POST" ∧
    (buildRefreshRequest url options refreshToken).headers =
      options.headers.getD [("Content-Type", "application/json")] ∧
    (buildRefreshRequest url options refreshToken).body =
      some (.obj [((resolveTokenConfig options.tokenNames).refreshTokenName,
        .str refreshToken)]) ∧
    ∀ b : Json,
      (buildRefreshRequest url { options with body := some b } refreshToken).body =
        (buildRefreshRequest url options refreshToken).body :=
  ⟨rfl, rfl, rfl, fun _ => rfl⟩

/-- Counterexample for C4 as stated: a caller-supplied body is not used; the
constructed body wins. -/
theorem c4_counterexample :
    (buildRefreshRequest "https://auth/refresh" { body := some (.str "caller-body") }
        "R1").body = some (.obj [("refreshToken", .str "R1")]) ∧
    (buildRefreshRequest "https://auth/refresh" { body := some (.str "caller-body") }
        "R1").body ≠ some (.str "caller-body") := by
  refine ⟨rfl, ?_⟩
  rw [show (buildRefreshRequest "https://auth/refresh" { body := some (.str "caller-body") }
      "R1").body = some (.obj [("refreshToken", .str "R1")]) from rfl]
  simp

/-- C9: the options refreshAndRetry hands to retry carry
refreshOptions.tokenNames as their token configuration; a tokenNames field of
the retry options argument is discarded (the whole run is independent of it),
and an absent refreshOptions.tokenNames resolves to the default names and the
Bearer format. -/
theorem c9_token_config_from_refresh (url : String) (options : RetryOptions)
    (refreshUrl : String) (refreshOptions : RefreshOptions) (transport : Transport)
    (store : CookieStore) (tn : Option TokenConfig) :
    (refreshAndRetryT url options refreshUrl refreshOptions transport store).2.2 =
      (if (refresh refreshUrl refreshOptions transport store).1.success
       then some { options with tokenNames := refreshOptions.tokenNames } else none) ∧
    refreshAndRetryT url { options with tokenNames := tn } refreshUrl refreshOptions
        transport store =
      refreshAndRetryT url options refreshUrl refreshOptions transport store ∧
    resolveTokenConfig none =
      { accessTokenName := "accessToken", refreshTokenName := "refreshToken"
      , authHeaderFormat := .bearer } := by
  refine ⟨?_, rfl, rfl⟩
  unfold refreshAndRetryT
  cases hs : (refresh refreshUrl refreshOptions transport store).1.success <;> simp [hs]

/-- C3: fetchWithRefreshRetry performs at most one refresh-and-retry cycle:
the refreshAndRetry step runs at most once, and when it runs the returned
outcome is the refreshAndRetry outcome unchanged, which in turn is the retry
result unchanged (flags included) when the refresh succeeded, so a second 401
on the retried request triggers no further refresh or retry. -/
theorem c3_single_cycle (url : String) (options : RetryOptions) (refreshUrl : String)
    (refreshOptions : RefreshOptions) (transport : Transport) (store : CookieStore) :
    (fetchWithRefreshRetryT url options refreshUrl refreshOptions transport store).2.2 ≤ 1 ∧
    ((fetchWithRefreshRetryT url options refreshUrl refreshOptions transport store).2.2 = 0 ∨
      ((fetchWithRefreshRetryT url options refreshUrl refreshOptions transport store).1,
       (fetchWithRefreshRetryT url options refreshUrl refreshOptions transport store).2.1) =
        refreshAndRetry url options refreshUrl refreshOptions transport store) ∧
    (refreshAndRetry url options refreshUrl refreshOptions transport store).1 =
      (if (refresh refreshUrl refreshOptions transport store).1.success
       then retry url { options with tokenNames := refreshOptions.tokenNames } transport
         (refresh refreshUrl refreshOptions transport store).2
       else (refresh refreshUrl refreshOptions transport store).1) := by
  have hthird : (refreshAndRetry url options refreshUrl refreshOptions transport store).1 =
      (if (refresh refreshUrl refreshOptions transport store).1.success
       then retry url { options with tokenNames := refreshOptions.tokenNames } transport
         (refresh refreshUrl refreshOptions transport store).2
       else (refresh refreshUrl refreshOptions transport store).1) := by
    unfold refreshAndRetry refreshAndRetryT
    cases hs : (refresh refreshUrl refreshOptions transport store).1.success <;> simp [hs]
  refine ⟨?_, ?_, hthird⟩
  · unfold fetchWithRefreshRetryT
    rcases ht : transport (buildInitialRequest url options) with _ | resp <;> simp [ht]
    repeat' split
    all_goals simp
  · unfold fetchWithRefreshRetryT
    rcases ht : transport (buildInitialRequest url options) with _ | resp
    · simp [ht]
    · simp only [ht]
      repeat' split
      all_goals first
        | exact Or.inl rfl
        | exact Or.inr rfl

/-- Every early failure of the read segment of refresh satisfies the result
shape invariant with a null data field. -/
theorem refreshRead_inl_shape (options : RefreshOptions) (store : CookieStore)
    (r : OperationResult) (h : refreshRead options store = Sum.inl r) :
    c2Shape r false = true := by
  simp only [refreshRead] at h
  split at h
  · injection h with h2
    subst h2
    rfl
  · simp at h

/-- Every failure of the fetch segment of refresh satisfies the result shape
invariant with a null data field. -/
theorem refreshFetch_inl_shape (url : String) (options : RefreshOptions)
    (transport : Transport) (tok : String) (r : OperationResult)
    (h : refreshFetch url options transport tok = Sum.inl r) :
    c2Shape r false = true := by
  simp only [refreshFetch] at h
  repeat' split at h
  all_goals first
    | (injection h with h2; subst h2; rfl)
    | simp at h

/-- Every refresh result satisfies the result shape invariant with a null data
field: on failure an error string is present, on success the error is absent
and the data field is null. -/
theorem refresh_shape (url : String) (options : RefreshOptions) (transport : Transport)
    (store : CookieStore) : c2Shape (refresh url options transport store).1 false = true := by
  unfold refresh
  rcases hr : refreshRead options store with r | tok
  · simp only [hr]
    exact refreshRead_inl_shape options store r hr
  · simp only [hr]
    rcases hf : refreshFetch url options transport tok with r2 | ⟨av, rv, st⟩
    · simp only [hf]
      exact refreshFetch_inl_shape url options transport tok r2 hf
    · simp only [hf]
      rfl

/-- A result satisfying the refresh shape satisfies the error invariant. -/
theorem errorInvariant_of_c2Shape (r : OperationResult) (h : c2Shape r false = true) :
    errorInvariant r = true := by
  unfold c2Shape at h
  unfold errorInvariant
  cases hs : r.success
  · rw [hs] at h
    simpa using h
  · rw [hs] at h
    simp at h
    simp [h.1]

/-- Every retry result satisfies the error invariant: an error value on
failure, no error on success. -/
theorem retry_shape (url : String) (options : RetryOptions) (transport : Transport)
    (store : CookieStore) : errorInvariant (retry url options transport store) = true := by
  simp only [retry, retryT]
  repeat' split
  all_goals rfl

/-- Every refreshAndRetry result satisfies the error invariant. -/
theorem refreshAndRetry_shape (url : String) (options : RetryOptions) (refreshUrl : String)
    (refreshOptions : RefreshOptions) (transport : Transport) (store : CookieStore) :
    errorInvariant (refreshAndRetry url options refreshUrl refreshOptions transport store).1
      = true := by
  unfold refreshAndRetry refreshAndRetryT
  cases hs : (refresh refreshUrl refreshOptions transport store).1.success
  · simp only [hs]
    have h2 := errorInvariant_of_c2Shape _
      (refresh_shape refreshUrl refreshOptions transport store)
    simpa using h2
  · simp only [hs]
    simpa using retry_shape url { options with tokenNames := refreshOptions.tokenNames }
      transport (refresh refreshUrl refreshOptions transport store).2

/-- Every fetchWithRefreshRetry result satisfies the error invariant. -/
theorem fetchWithRefreshRetry_shape (url : String) (options : RetryOptions)
    (refreshUrl : String) (refreshOptions : RefreshOptions) (transport : Transport)
    (store : CookieStore) :
    errorInvariant
      (fetchWithRefreshRetry url options refreshUrl refreshOptions transport store).1
      = true := by
  unfold fetchWithRefreshRetry fetchWithRefreshRetryT
  rcases ht : transport (buildInitialRequest url options) with _ | resp
  · simp [ht, errorInvariant]
  · simp only [ht]
    repeat' split
    all_goals first
      | rfl
      | exact refreshAndRetry_shape url options refreshUrl refreshOptions transport store

/-- C2 (amended): for every public operation and every transport outcome, a
failure result carries an error and a success result carries no error; the
data-present-on-success half of the claimed invariant does not hold: refresh
returns data null even on success (with the data null constraint proved here
through the refresh shape), and retry and fetchWithRefreshRetry return the
parsed body as data, which is itself null (an absent field) when the response
body is the JSON null. -/
theorem c2_result_shape (url : String) (options : RetryOptions) (refreshUrl : String)
    (refreshOptions : RefreshOptions) (transport : Transport) (store : CookieStore) :
    c2Shape (refresh refreshUrl refreshOptions transport store).1 false = true ∧
    errorInvariant (retry url options transport store) = true ∧
    errorInvariant (refreshAndRetry url options refreshUrl refreshOptions transport store).1
      = true ∧
    errorInvariant
      (fetchWithRefreshRetry url options refreshUrl refreshOptions transport store).1
      = true :=
  ⟨refresh_shape refreshUrl refreshOptions transport store,
   retry_shape url options transport store,
   refreshAndRetry_shape url options refreshUrl refreshOptions transport store,
   fetchWithRefreshRetry_shape url options refreshUrl refreshOptions transport store⟩

/-- Counterexample for C2 as stated: a successful refresh resolves with
success true but with a data field holding null, not a present value. -/
theorem c2_counterexample :
    (refresh "https://auth/refresh" {} sampleTransport sampleStore).1.success = true ∧
    (refresh "https://auth/refresh" {} sampleTransport sampleStore).1.data.isSome = false :=
  ⟨rfl, rfl⟩

/-- A value delivered by jsTruthyOpt is truthy. -/
theorem jsTruthyOpt_some (a : Option Json) (v : Json) (h : jsTruthyOpt a = some v) :
    jsTruthy v = true := by
  rcases a with _ | w
  · simp [jsTruthyOpt] at h
  · rcases ht : jsTruthy w <;> simp_all [jsTruthyOpt]

/-- jsTruthyOpt is idempotent. -/
theorem jsTruthyOpt_idem (a : Option Json) : jsTruthyOpt (jsTruthyOpt a) = jsTruthyOpt a := by
  rcases ha : jsTruthyOpt a with _ | v
  · rfl
  · simp [jsTruthyOpt, jsTruthyOpt_some a v ha]

/-- The output of jsOr is already normalised. -/
theorem jsTruthyOpt_jsOr (a b : Option Json) : jsTruthyOpt (jsOr a b) = jsOr a b := by
  unfold jsOr
  rcases ha : jsTruthyOpt a with _ | v
  · exact jsTruthyOpt_idem b
  · simp [jsTruthyOpt, jsTruthyOpt_some a v ha]

/-- jsOr ignores a normalisation of its second operand. -/
theorem jsOr_truthyOpt_right (a b : Option Json) : jsOr a (jsTruthyOpt b) = jsOr a b := by
  unfold jsOr
  rcases ha : jsTruthyOpt a with _ | v
  · exact jsTruthyOpt_idem b
  · rfl

/-- jsOr is associative. -/
theorem jsOr_assoc (a b c : Option Json) : jsOr (jsOr a b) c = jsOr a (jsOr b c) := by
  rcases ha : jsTruthyOpt a with _ | v
  · have h1 : jsOr a b = jsTruthyOpt b := by
      unfold jsOr
      rw [ha]
    have h2 : jsOr a (jsOr b c) = jsTruthyOpt (jsOr b c) := by
      unfold jsOr
      rw [ha]
    rw [h1, h2, jsTruthyOpt_jsOr]
    unfold jsOr
    rw [jsTruthyOpt_idem]
  · have h1 : jsOr a b = some v := by
      unfold jsOr
      rw [ha]
    have h2 : jsOr a (jsOr b c) = some v := by
      unfold jsOr
      rw [ha]
    rw [h1, h2]
    unfold jsOr
    simp [jsTruthyOpt, jsTruthyOpt_some a v ha]

/-- The output of the ordered lookup is already normalised. -/
theorem jsTruthyOpt_firstTruthyLookup (body : Json) (ks : List String) :
    jsTruthyOpt (firstTruthyLookup body ks) = firstTruthyLookup body ks := by
  induction ks with
  | nil => rfl
  | cons k rest ih =>
    simp only [firstTruthyLookup]
    rcases hl : jsLookup body k with _ | v
    · simpa using ih
    · rcases ht : jsTruthy v
      · simpa [ht] using ih
      · simp [ht, jsTruthyOpt]

/-- The ordered lookup unrolls to a jsOr of the head lookup and the tail. -/
theorem firstTruthyLookup_cons (body : Json) (k : String) (ks : List String) :
    firstTruthyLookup body (k :: ks) = jsOr (jsLookup body k) (firstTruthyLookup body ks) := by
  simp only [firstTruthyLookup, jsOr]
  rcases hl : jsLookup body k with _ | v
  · exact (jsTruthyOpt_firstTruthyLookup body ks).symm
  · rcases ht : jsTruthy v
    · simp [jsTruthyOpt, ht]
      exact (jsTruthyOpt_firstTruthyLookup body ks).symm
    · simp [jsTruthyOpt, ht]

/-- jsOr with an empty second operand normalises the first. -/
theorem jsOr_none_right (a : Option Json) : jsOr a none = jsTruthyOpt a := by
  unfold jsOr
  rcases ha : jsTruthyOpt a with _ | v
  · rfl
  · rfl

/-- The ordered lookup of an empty key list is empty. -/
theorem firstTruthyLookup_nil (body : Json) : firstTruthyLookup body [] = none := rfl

/-- The or-chains of the json extraction of refresh compute exactly the
ordered first-truthy lookup the specification describes: the configured field
name first, then the literal fallback keys, first non-empty (truthy) match
wins. -/
theorem extractJsonTokens_eq (cfg : ResolvedTokenConfig) (body : Json) :
    extractJsonTokens cfg body =
      (firstTruthyLookup body [cfg.accessTokenName, "accessToken", "token", "access_token"],
       firstTruthyLookup body [cfg.refreshTokenName, "refreshToken", "refresh_token"]) := by
  unfold extractJsonTokens
  simp only [firstTruthyLookup_cons, firstTruthyLookup_nil, jsOr_none_right,
    jsOr_truthyOpt_right, jsOr_assoc]

/-- A 2xx json-mode refresh response with no recognised access token field
yields the malformed failure and leaves the store untouched (shared by the
claims about extraction and about failure without mutation). -/
theorem refresh_malformed_json (url : String) (options : RefreshOptions)
    (transport : Transport) (store : CookieStore) (refreshToken : String)
    (resp : HttpResponse) (body : Json)
    (hmode : options.responseType.getD .json = .json)
    (htok : storeGetTruthy store (resolveTokenConfig options.tokenNames).refreshTokenName =
      some refreshToken)
    (hresp : transport (buildRefreshRequest url options refreshToken) = some resp)
    (hok : respOk resp = true)
    (hbody : resp.jsonBody = some body)
    (hnone : firstTruthyLookup body [(resolveTokenConfig options.tokenNames).accessTokenName,
      "accessToken", "token", "access_token"] = none) :
    refresh url options transport store =
      ({ success := false, status := some 500
       , error := some (.str ("Access token not found in response (looking for: "
           ++ (resolveTokenConfig options.tokenNames).accessTokenName ++ ")"))
       , data := none }, store) := by
  have hr : refreshRead options store = Sum.inr refreshToken := by
    simp [refreshRead, htok]
  have hf : refreshFetch url options transport refreshToken =
      Sum.inl { success := false, status := some 500
              , error := some (.str ("Access token not found in response (looking for: "
                  ++ (resolveTokenConfig options.tokenNames).accessTokenName ++ ")"))
              , data := none } := by
    simp only [refreshFetch]
    rw [hresp]
    simp only [hok, hmode, hbody, Bool.not_true]
    rw [extractJsonTokens_eq, hnone]
    simp
  simp [refresh, hr, hf]

/-- C5: on a 2xx refresh response in json mode, the new access token is looked
up under, in order, the configured access token field name, then accessToken,
token, access_token, first truthy (non-empty) match wins; the refresh token
under the configured name, then refreshToken, refresh_token; and when no
access token match exists, refresh fails with success false and the malformed
response error (the Access token not found message, status 500). -/
theorem c5_json_extraction (url : String) (options : RefreshOptions) (transport : Transport)
    (store : CookieStore) (refreshToken : String) (resp : HttpResponse) (body : Json)
    (hmode : options.responseType.getD .json = .json)
    (htok : storeGetTruthy store (resolveTokenConfig options.tokenNames).refreshTokenName =
      some refreshToken)
    (hresp : transport (buildRefreshRequest url options refreshToken) = some resp)
    (hok : respOk resp = true)
    (hbody : resp.jsonBody = some body) :
    extractJsonTokens (resolveTokenConfig options.tokenNames) body =
      (firstTruthyLookup body [(resolveTokenConfig options.tokenNames).accessTokenName,
        "accessToken", "token", "access_token"],
       firstTruthyLookup body [(resolveTokenConfig options.tokenNames).refreshTokenName,
        "refreshToken", "refresh_token"]) ∧
    (firstTruthyLookup body [(resolveTokenConfig options.tokenNames).accessTokenName,
        "accessToken", "token", "access_token"] = none →
      refresh url options transport store =
        ({ success := false, status := some 500
         , error := some (.str ("Access token not found in response (looking for: "
             ++ (resolveTokenConfig options.tokenNames).accessTokenName ++ ")"))
         , data := none }, store)) := by
  exact ⟨extractJsonTokens_eq _ body, fun hnone =>
    refresh_malformed_json url options transport store refreshToken resp body
      hmode htok hresp hok hbody hnone⟩

/-- Witness for C5 at a 200 response whose body carries no recognised access
token field. -/
theorem c5_witness :
    refresh "https://auth/refresh" {} c5Transport sampleStore =
      ({ success := false, status := some 500
       , error := some (.str "Access token not found in response (looking for: accessToken)")
       , data := none }, sampleStore) :=
  (c5_json_extraction "https://auth/refresh" {} c5Transport sampleStore "R1"
    { status := 200, jsonBody := some (.obj [("foo", .str "bar")]), setCookie := none }
    (.obj [("foo", .str "bar")]) rfl rfl rfl rfl rfl).2 rfl

/-- C6: a refresh invocation that fails on a non-2xx response, or on a 2xx
json-mode response whose body carries no recognised access token field,
returns success false and performs no credential store mutation: the store is
returned unchanged, nothing written, nothing deleted. -/
theorem c6_failure_no_mutation (url : String) (options : RefreshOptions)
    (transport : Transport) (store : CookieStore) (refreshToken : String)
    (resp : HttpResponse)
    (htok : storeGetTruthy store (resolveTokenConfig options.tokenNames).refreshTokenName =
      some refreshToken)
    (hresp : transport (buildRefreshRequest url options refreshToken) = some resp)
    (hfail : respOk resp = false ∨
      (options.responseType.getD .json = .json ∧ respOk resp = true ∧
        ∃ body, resp.jsonBody = some body ∧
          firstTruthyLookup body [(resolveTokenConfig options.tokenNames).accessTokenName,
            "accessToken", "token", "access_token"] = none)) :
    (refresh url options transport store).1.success = false ∧
    (refresh url options transport store).2 = store := by
  have hr : refreshRead options store = Sum.inr refreshToken := by
    simp [refreshRead, htok]
  rcases hfail with hnok | ⟨hmode, hok, body, hbody, hnone⟩
  · have hf : refreshFetch url options transport refreshToken =
        Sum.inl { success := false, status := some resp.status
                , error := some (.str "Token refresh failed"), data := none } := by
      simp only [refreshFetch]
      rw [hresp]
      simp [hnok]
    simp [refresh, hr, hf]
  · rw [refresh_malformed_json url options transport store refreshToken resp body
      hmode htok hresp hok hbody hnone]
    exact ⟨rfl, rfl⟩

/-- Witness for C6 at a concrete 403 rejection of the refresh endpoint. -/
theorem c6_witness :
    (refresh "https://auth/refresh" {} c6Transport sampleStore).1.success = false ∧
    (refresh "https://auth/refresh" {} c6Transport sampleStore).2 = sampleStore :=
  c6_failure_no_mutation "https://auth/refresh" {} c6Transport sampleStore "R1"
    { status := 403, jsonBody := none, setCookie := none } rfl rfl (Or.inl rfl)

/-- Looking up the name just written yields the written value. -/
theorem headerGet_set_self (hs : List (String × String)) (name value : String) :
    headerGet (headerSet hs name value) name = some value := by
  induction hs with
  | nil => simp [headerSet, headerGet]
  | cons p rest ih =>
    rcases p with ⟨k, v⟩
    by_cases hk : k = name
    · simp [headerSet, headerGet, hk]
    · simp [headerSet, headerGet, hk, ih]

/-- Writing one header name leaves lookups of a different name unchanged. -/
theorem headerGet_set_ne (hs : List (String × String)) (m n v : String) (h : n ≠ m) :
    headerGet (headerSet hs m v) n = headerGet hs n := by
  induction hs with
  | nil =>
    simp [headerSet, headerGet]
    intro hc
    exact absurd hc.symm h
  | cons p rest ih =>
    rcases p with ⟨k, w⟩
    by_cases hk : k = m
    · have hkn : ¬(k = n) := by
        rw [hk]
        intro hc
        exact h hc.symm
      simp [headerSet, headerGet, hk, hkn, Ne.symm h]
    · by_cases hkn : k = n
      · simp [headerSet, headerGet, hk, hkn, h]
      · simp [headerSet, headerGet, hk, hkn, ih]

/-- The retry request always carries Content-Type application/json: the entry
stands after the spread of the caller headers, so a caller value of that name
is overwritten. -/
theorem buildRetry_ct_json (url : String) (options : RetryOptions)
    (accessToken : Option String) :
    headerGet (buildRetryRequest url options accessToken).headers "Content-Type" =
      some "application/json" := by
  simp only [buildRetryRequest]
  rw [headerGet_set_ne _ _ _ _ (by decide), headerGet_set_self]

/-- The retry request always carries Accept application/json, caller values
overwritten likewise. -/
theorem buildRetry_accept_json (url : String) (options : RetryOptions)
    (accessToken : Option String) :
    headerGet (buildRetryRequest url options accessToken).headers "Accept" =
      some "application/json" := by
  simp only [buildRetryRequest]
  rw [headerGet_set_self]

/-- With a stored access token whose formatted header value is non-empty, the
retry request carries the computed Authorization header. -/
theorem buildRetry_auth (url : String) (options : RetryOptions) (accessToken : String)
    (hne : formatAuthHeader (resolveTokenConfig options.tokenNames).authHeaderFormat
      accessToken ≠ "") :
    headerGet (buildRetryRequest url options (some accessToken)).headers "Authorization" =
      some (formatAuthHeader (resolveTokenConfig options.tokenNames).authHeaderFormat
        accessToken) := by
  have hempty : (formatAuthHeader (resolveTokenConfig options.tokenNames).authHeaderFormat
      accessToken).isEmpty = false := by
    rcases he : (formatAuthHeader (resolveTokenConfig options.tokenNames).authHeaderFormat
        accessToken).isEmpty
    · rfl
    · exact absurd ((String.isEmpty_iff _).mp he) hne
  simp only [buildRetryRequest, hempty]
  rw [headerGet_set_ne _ _ _ _ (by decide), headerGet_set_ne _ _ _ _ (by decide)]
  rw [if_neg (by decide : ¬(false = true))]
  rw [headerGet_set_self]

/-- Without a stored access token, the Authorization header of the retry
request is whatever the caller headers carry. -/
theorem buildRetry_auth_absent (url : String) (options : RetryOptions) :
    headerGet (buildRetryRequest url options none).headers "Authorization" =
      headerGet (options.headers.getD []) "Authorization" := by
  simp only [buildRetryRequest]
  rw [headerGet_set_ne _ _ _ _ (by decide), headerGet_set_ne _ _ _ _ (by decide)]

/-- Retry always hands the built retry request to the transport, whether or
not an access token is stored. -/
theorem retryT_sends (url : String) (options : RetryOptions) (transport : Transport)
    (store : CookieStore) :
    (retryT url options transport store).2 =
      some (buildRetryRequest url options
        (storeGetTruthy store (resolveTokenConfig options.tokenNames).accessTokenName)) := by
  simp only [retryT]
  repeat' split
  all_goals rfl

/-- C7 (amended): with a stored access token, the outbound retry request
carries an Authorization header equal to the configured scheme prefix (Bearer
by default) concatenated with the token, or the output of a caller-supplied
formatting function, whenever that computed value is non-empty; Content-Type
and Accept are always set to application/json, overwriting caller-supplied
values of those names (they stand after the spread of the caller headers in
retry.ts), and the request is issued even without a stored token. -/
theorem c7_retry_headers (url : String) (options : RetryOptions) (transport : Transport)
    (store : CookieStore) (accessToken : String)
    (htok : storeGetTruthy store (resolveTokenConfig options.tokenNames).accessTokenName =
      some accessToken) :
    (retryT url options transport store).2 =
      some (buildRetryRequest url options (some accessToken)) ∧
    (formatAuthHeader (resolveTokenConfig options.tokenNames).authHeaderFormat
        accessToken ≠ "" →
      headerGet (buildRetryRequest url options (some accessToken)).headers "Authorization" =
        some (formatAuthHeader (resolveTokenConfig options.tokenNames).authHeaderFormat
          accessToken)) ∧
    formatAuthHeader .bearer accessToken = "Bearer " ++ accessToken ∧
    (∀ f : String → String, formatAuthHeader (.custom f) accessToken = f accessToken) ∧
    (resolveTokenConfig none).authHeaderFormat = .bearer ∧
    (∀ t : Option String,
      headerGet (buildRetryRequest url options t).headers "Content-Type" =
        some "application/json") ∧
    (∀ t : Option String,
      headerGet (buildRetryRequest url options t).headers "Accept" =
        some "application/json") := by
  refine ⟨?_, fun hne => buildRetry_auth url options accessToken hne, rfl, fun _ => rfl,
    rfl, fun t => buildRetry_ct_json url options t, fun t => buildRetry_accept_json url
    options t⟩
  rw [retryT_sends url options transport store, htok]

/-- Counterexample for C7 as stated: a caller-supplied Content-Type of
text/plain is not preserved; the retry request overwrites it with
application/json. -/
theorem c7_counterexample :
    headerGet (c7Options.headers.getD []) "Content-Type" = some "text/plain" ∧
    headerGet (buildRetryRequest "https://api/data" c7Options (some "A1")).headers
      "Content-Type" = some "application/json" ∧
    headerGet (buildRetryRequest "https://api/data" c7Options (some "A1")).headers
      "Content-Type" ≠ some "text/plain" := by
  refine ⟨rfl, rfl, ?_⟩
  rw [show headerGet (buildRetryRequest "https://api/data" c7Options (some "A1")).headers
      "Content-Type" = some "application/json" from rfl]
  decide

/-- Witness for C7 at a store holding token A1: the request is sent as built,
the Authorization header is Bearer A1, and Content-Type is application/json. -/
theorem c7_witness :
    (retryT "https://api/data" c7Options c7Transport c7Store).2 =
      some (buildRetryRequest "https://api/data" c7Options (some "A1")) ∧
    headerGet (buildRetryRequest "https://api/data" c7Options (some "A1")).headers
      "Authorization" = some ("Bearer " ++ "A1") ∧
    headerGet (buildRetryRequest "https://api/data" c7Options (some "A1")).headers
      "Content-Type" = some "application/json" := by
  obtain ⟨h1, h2, _, _, _, h6, _⟩ :=
    c7_retry_headers "https://api/data" c7Options c7Transport c7Store "A1" rfl
  exact ⟨h1, h2 (by decide), h6 (some "A1")⟩

/-- A caller that runs its three cooperative steps alone computes exactly
refresh: the phase machine is a decomposition of refresh, not a different
program. -/
theorem stepTimes_eq_refresh (url : String) (options : RefreshOptions)
    (transport : Transport) (store : CookieStore) :
    stepTimes url options transport 3 (.start, store) =
      (.done (refresh url options transport store).1,
       (refresh url options transport store).2) := by
  rcases hr : refreshRead options store with r | tok
  · simp [stepTimes, callerStep, refresh, hr]
  · rcases hf : refreshFetch url options transport tok with r2 | ⟨av, rv, st⟩
    · simp [stepTimes, callerStep, refresh, hr, hf]
    · simp [stepTimes, callerStep, refresh, hr, hf]

/-- Writing one cookie name leaves reads of a different name unchanged. -/
theorem storeGet_set_ne (s : CookieStore) (name k v : String) (h : k ≠ name) :
    storeGet (storeSet s name v) k = storeGet s k := by
  induction s with
  | nil =>
    simp [storeSet, storeGet]
    intro hc
    exact absurd hc.symm h
  | cons p rest ih =>
    rcases p with ⟨n2, v2⟩
    by_cases hn : n2 = name
    · have hnk : ¬(n2 = k) := by
        rw [hn]
        intro hc
        exact h hc.symm
      simp [storeSet, storeGet, hn, hnk, Ne.symm h]
    · by_cases hnk : n2 = k
      · simp [storeSet, storeGet, hn, hnk, h]
      · simp [storeSet, storeGet, hn, hnk, ih]

/-- Truthy reads are likewise unchanged by a write to a different name. -/
theorem storeGetTruthy_set_ne (s : CookieStore) (name k v : String) (h : k ≠ name) :
    storeGetTruthy (storeSet s name v) k = storeGetTruthy s k := by
  unfold storeGetTruthy
  rw [storeGet_set_ne s name k v h]

/-- The read segment of refresh on the fixture options succeeds whenever the
refresh token cookie holds R1. -/
theorem read_fixture (store : CookieStore)
    (h : storeGetTruthy store "refreshToken" = some "R1") :
    refreshRead {} store = Sum.inr "R1" := by
  have e : refreshRead {} store =
      (match storeGetTruthy store "refreshToken" with
       | none =>
         Sum.inl { success := false, status := some 401
                 , error := some (.str "No refresh token available"), data := none }
       | some refreshToken => Sum.inr refreshToken) := rfl
  rw [e, h]

/-- The fetch segment of refresh against the fixture transport always extracts
the token A2 with no rotated refresh token, whatever the request was. -/
theorem fetch_fixture (tok : String) :
    refreshFetch "https://auth/refresh" {} sampleTransport tok =
      Sum.inr (.str "A2", none, 200) := rfl

/-- The write segment of refresh for the extracted fixture tokens writes the
access token cookie and returns the success result. -/
theorem write_fixture (store : CookieStore) :
    refreshWrite {} store (.str "A2") none 200 =
      ({ success := true, status := some 200, data := none, error := none },
       storeSet store "accessToken" "A2") := by
  simp [refreshWrite, jsToString, resolveTokenConfig]

/-- One scheduling step preserves the two-caller invariant of the fixture
run. -/
theorem caller_step_fixture (p : CallerPhase) (store : CookieStore)
    (hp : phaseOK p = true) (hs : storeGetTruthy store "refreshToken" = some "R1") :
    phaseOK (callerStep "https://auth/refresh" {} sampleTransport p store).1 = true ∧
    storeGetTruthy (callerStep "https://auth/refresh" {} sampleTransport p store).2.1
      "refreshToken" = some "R1" ∧
    (callerStep "https://auth/refresh" {} sampleTransport p store).2.2 + phaseExecs p =
      phaseExecs (callerStep "https://auth/refresh" {} sampleTransport p store).1 := by
  cases p with
  | start =>
    simp [callerStep, read_fixture store hs, phaseOK, phaseExecs, hs]
  | fetching tok =>
    have htok : tok = "R1" := by
      simpa [phaseOK] using hp
    subst htok
    simp [callerStep, fetch_fixture, phaseOK, phaseExecs, hs]
  | writing av rv st =>
    rcases av with _ | b | n | a | fs | es <;> rcases rv with _ | v <;>
      simp [phaseOK] at hp
    obtain ⟨ha, hst⟩ := hp
    subst ha
    subst hst
    simp [callerStep, write_fixture, phaseOK, phaseExecs, resultIsOkToken,
      storeGetTruthy_set_ne store "accessToken" "refreshToken" "A2" (by decide), hs]
  | done r =>
    have hr : resultIsOkToken r = true := by
      simpa [phaseOK] using hp
    simp [callerStep, phaseOK, phaseExecs, hr, hs]

/-- The scheduling step preserves the joint invariant. -/
theorem inv_step (st : TwoCallerState) (who : Bool) (h : twoCallerInv st = true) :
    twoCallerInv (schedStep "https://auth/refresh" {} sampleTransport st who) = true := by
  simp only [twoCallerInv, Bool.and_eq_true, beq_iff_eq] at h
  obtain ⟨⟨⟨hp1, hp2⟩, hstore⟩, hcount⟩ := h
  cases who
  · obtain ⟨hq, hqs, hqe⟩ := caller_step_fixture st.caller2 st.store hp2 hstore
    have e : schedStep "https://auth/refresh" {} sampleTransport st false =
        { caller1 := st.caller1
        , caller2 := (callerStep "https://auth/refresh" {} sampleTransport st.caller2
            st.store).1
        , store := (callerStep "https://auth/refresh" {} sampleTransport st.caller2
            st.store).2.1
        , refreshExecutions := st.refreshExecutions +
            (callerStep "https://auth/refresh" {} sampleTransport st.caller2 st.store).2.2 } :=
      rfl
    rw [e]
    simp only [twoCallerInv, Bool.and_eq_true, beq_iff_eq]
    refine ⟨⟨⟨hp1, hq⟩, hqs⟩, ?_⟩
    omega
  · obtain ⟨hq, hqs, hqe⟩ := caller_step_fixture st.caller1 st.store hp1 hstore
    have e : schedStep "https://auth/refresh" {} sampleTransport st true =
        { caller1 := (callerStep "https://auth/refresh" {} sampleTransport st.caller1
            st.store).1
        , caller2 := st.caller2
        , store := (callerStep "https://auth/refresh" {} sampleTransport st.caller1
            st.store).2.1
        , refreshExecutions := st.refreshExecutions +
            (callerStep "https://auth/refresh" {} sampleTransport st.caller1 st.store).2.2 } :=
      rfl
    rw [e]
    simp only [twoCallerInv, Bool.and_eq_true, beq_iff_eq]
    refine ⟨⟨⟨hq, hp2⟩, hqs⟩, ?_⟩
    omega

/-- Every scheduled run from an invariant state stays in the invariant. -/
theorem inv_run (sched : List Bool) (st : TwoCallerState) (h : twoCallerInv st = true) :
    twoCallerInv (schedRun "https://auth/refresh" {} sampleTransport st sched) = true := by
  induction sched generalizing st with
  | nil => exact h
  | cons w ws ih => exact ih _ (inv_step st w h)

/-- Counterexample for C1 as stated: two concurrent callers of refresh for the
same scope (same url and options, shared store), interleaved so that each
begins before the other settles, perform two refresh executions, not one: the
first execution happens while caller two is in flight and not yet settled, the
second while caller one is in flight and not yet settled, and both callers
settle by the end of the schedule. -/
theorem c1_counterexample :
    (schedRun "https://auth/refresh" {} sampleTransport (initTwoCallers sampleStore)
        [true, false, true]).refreshExecutions = 1 ∧
    isDone (schedRun "https://auth/refresh" {} sampleTransport (initTwoCallers sampleStore)
        [true, false, true]).caller2 = false ∧
    (schedRun "https://auth/refresh" {} sampleTransport (initTwoCallers sampleStore)
        [true, false, true, false]).refreshExecutions = 2 ∧
    isDone (schedRun "https://auth/refresh" {} sampleTransport (initTwoCallers sampleStore)
        [true, false, true, false]).caller1 = false ∧
    (schedRun "https://auth/refresh" {} sampleTransport (initTwoCallers sampleStore)
        c1Schedule).refreshExecutions = 2 ∧
    isDone (schedRun "https://auth/refresh" {} sampleTransport (initTwoCallers sampleStore)
        c1Schedule).caller1 = true ∧
    isDone (schedRun "https://auth/refresh" {} sampleTransport (initTwoCallers sampleStore)
        c1Schedule).caller2 = true ∧
    (2 : Nat) ≠ 1 :=
  ⟨rfl, rfl, rfl, rfl, rfl, rfl, rfl, by decide⟩

/-- C1 (amended): the code has no single-flight coordinator, so each
concurrent caller independently runs the refresh execution: under every
interleaving of the two fixture callers that lets both settle, exactly two
refresh executions occur, one per caller. -/
theorem c1_no_dedup_two_executions (schedule : List Bool)
    (h1 : isDone (schedRun "https://auth/refresh" {} sampleTransport
      (initTwoCallers sampleStore) schedule).caller1 = true)
    (h2 : isDone (schedRun "https://auth/refresh" {} sampleTransport
      (initTwoCallers sampleStore) schedule).caller2 = true) :
    (schedRun "https://auth/refresh" {} sampleTransport (initTwoCallers sampleStore)
      schedule).refreshExecutions = 2 := by
  have hinv := inv_run schedule (initTwoCallers sampleStore) rfl
  simp only [twoCallerInv, Bool.and_eq_true, beq_iff_eq] at hinv
  obtain ⟨⟨⟨hp1, hp2⟩, hstore⟩, hcount⟩ := hinv
  rcases hc1 : (schedRun "https://auth/refresh" {} sampleTransport
      (initTwoCallers sampleStore) schedule).caller1 with _ | t | ⟨a, b, c⟩ | r1
  · rw [hc1] at h1
    simp [isDone] at h1
  · rw [hc1] at h1
    simp [isDone] at h1
  · rw [hc1] at h1
    simp [isDone] at h1
  · rcases hc2 : (schedRun "https://auth/refresh" {} sampleTransport
        (initTwoCallers sampleStore) schedule).caller2 with _ | t | ⟨a, b, c⟩ | r2
    · rw [hc2] at h2
      simp [isDone] at h2
    · rw [hc2] at h2
      simp [isDone] at h2
    · rw [hc2] at h2
      simp [isDone] at h2
    · rw [hc1, hc2] at hcount
      simpa [phaseExecs] using hcount

/-- Witness for C1 at the interleaved schedule of the counterexample. -/
theorem c1_witness :
    (schedRun "https://auth/refresh" {} sampleTransport (initTwoCallers sampleStore)
      c1Schedule).refreshExecutions = 2 :=
  c1_no_dedup_two_executions c1Schedule rfl rfl
